import Mathlib

/-!
Shallow embedding of the ngn agent (an autonomous Jira-driven coding agent):
the sandboxed tool executor, the bounded conversation loop, the retry
wrappers, git clone URL validation and the candidate-ticket ordering.
Python sources embedded: ngn_agent/coder.py, ngn_agent/git.py,
ngn_agent/jira.py, ngn_agent/validator.py.

Machine-level effects (file reads/writes, directory removal, subprocess
spawns) are made explicit: each operation returns, besides its result
string, the effects it performed, so that "performs no I/O" claims are
statements about an empty effect list.  Paths are modelled as component
lists; `Path.resolve()` is modelled on a symlink-free filesystem as
joining against the process working directory and normalising `.` and
`..` segments, which is exactly what the canonicalisation does there.
-/

namespace NgnAgent

/-! ## Paths and the workspace containment check (coder.py) -/

/-- Split a character list at every `/`, accumulating the current segment
in reverse. -/
def splitSlashAux : List Char → List Char → List String
  | [], acc => [String.mk acc.reverse]
  | c :: cs, acc =>
    if c = '/' then String.mk acc.reverse :: splitSlashAux cs []
    else splitSlashAux cs (c :: acc)

/-- Split a path string into its non-empty components (`Path` parsing:
consecutive separators and trailing separators are ignored). -/
def parseComponents (s : String) : List String :=
  (splitSlashAux s.data []).filter (fun c => c ≠ "")

/-- A path string is absolute when it starts with the separator. -/
def isAbsolute (s : String) : Bool :=
  match s.data with
  | c :: _ => c = '/'
  | [] => false

/-- `str.startswith`: the pattern, as a character list, is a prefix of the
string. -/
def strStartsWith (s pattern : String) : Bool :=
  pattern.data.isPrefixOf s.data

/-- One normalisation step of `Path.resolve()`: `.` is dropped, `..` removes
the last component (at the root it stays at the root), anything else is
appended. -/
def resolveStep (acc : List String) (comp : String) : List String :=
  if comp = "." then acc
  else if comp = ".." then acc.dropLast
  else acc ++ [comp]

/-- `Path(s).resolve()` on a symlink-free filesystem: an absolute path is
normalised as is, a relative path is joined to the process working
directory `cwd` (given as an already-canonical component list) first. -/
def resolvePath (cwd : List String) (s : String) : List String :=
  (if isAbsolute s then parseComponents s else cwd ++ parseComponents s).foldl resolveStep []

/-- `Path.is_relative_to`: for two fully resolved paths this holds exactly
when the root path, componentwise, is a prefix of the other (a path is
relative to itself). -/
def isRelativeTo (p root : List String) : Bool :=
  decide (root <+: p)

/-- The containment check shared by `_read_file` and `_write_file` in
coder.py: resolve the requested path and the workspace root (both against
the process working directory) and require the former to lie under the
latter. -/
def containmentOk (path workspace : String) (cwd : List String) : Bool :=
  isRelativeTo (resolvePath cwd path) (resolvePath cwd workspace)

/-- The filesystem contents: a map from resolved path components to file
text, newest entry first. -/
abbrev FS := List (List String × String)

/-- Look a resolved path up in the filesystem map. -/
def lookupFS : FS → List String → Option String
  | [], _ => none
  | (k, v) :: rest, p => if k = p then some v else lookupFS rest p

/-- `_read_file` from coder.py: resolve the path, refuse with an error
string when the resolved path is not inside the workspace, otherwise read.
The second component lists the (resolved) paths whose contents were read;
the containment failure branch performs none.  The Python code catches all
exceptions and returns error strings, so the embedding is a total function
returning a string — no exception crosses the tool boundary. -/
def readFileTool (path workspace : String) (cwd : List String) (fs : FS) :
    String × List (List String) :=
  let resolved := resolvePath cwd path
  if containmentOk path workspace cwd then
    match lookupFS fs resolved with
    | some content => (content, [resolved])
    | none => ("Error reading " ++ path ++ ": no such file", [resolved])
  else
    ("Error: path " ++ path ++ " is outside the workspace and cannot be accessed", [])

/-- `_write_file` from coder.py: resolve the path, refuse with an error
string when the resolved path is not inside the workspace, otherwise
create parents as needed and overwrite, returning the confirmation string
with the byte count.  The updated filesystem map is returned; on the
containment failure branch it is unchanged. -/
def writeFileTool (path content workspace : String) (cwd : List String) (fs : FS) :
    String × FS :=
  let resolved := resolvePath cwd path
  if containmentOk path workspace cwd then
    ("Wrote " ++ toString content.length ++ " bytes to " ++ path, (resolved, content) :: fs)
  else
    ("Error: path " ++ path ++ " is outside the workspace and cannot be written", fs)

/-! ## Credential stripping for run_command (coder.py) -/

/-- `_CREDENTIAL_ENV_VARS` from coder.py: names that must never be
forwarded to the agent subprocess. -/
def CREDENTIAL_ENV_VARS : List String :=
  ["ANTHROPIC_API_KEY", "JIRA_API_TOKEN", "JIRA_EMAIL", "JIRA_BASE_URL", "JIRA_FILTER_ID"]

/-- A process environment: an association list of variable names to
values. -/
abbrev Env := List (String × String)

/-- The dict comprehension in `_run_command`: a fresh copy of the parent
environment keeping exactly the entries whose name is not a credential
name. -/
def sanitizeEnv (env : Env) : Env :=
  env.filter (fun kv => !(CREDENTIAL_ENV_VARS.contains kv.1))

/-- The subprocess invocation built by `_run_command`: the command string,
its working directory, the environment handed to it and the hard timeout
(120 seconds). -/
structure SpawnedProcess where
  command : String
  cwd : String
  env : Env
  timeout : Nat
deriving DecidableEq, Repr

/-- `_run_command` from coder.py, up to the `subprocess.run` call: builds
the sanitised environment from the parent environment and spawns the
command with it.  The parent environment is returned unchanged alongside
the spawn record — the code copies (dict comprehension) and never mutates
`os.environ`. -/
def runCommandSpawn (command cwd : String) (parentEnv : Env) : SpawnedProcess × Env :=
  ({ command := command, cwd := cwd, env := sanitizeEnv parentEnv, timeout := 120 }, parentEnv)

/-! ## Git clone URL validation (git.py) -/

/-- `_ALLOWED_URL_PREFIXES` from git.py. -/
def ALLOWED_URL_PREFIXES : List String :=
  ["https://", "git@"]

/-- An observable side effect of `clone_repo`: removing the pre-existing
destination tree, creating the destination parent directories, or spawning
a subprocess with the given argument vector. -/
inductive GitEffect
  | rmtree (dest : String)
  | mkdirParents (dest : String)
  | spawn (args : List String)
deriving DecidableEq, Repr

/-- `clone_repo` from git.py: validate the URL against the allowed
prefixes first and raise `ValueError` (the `.error` branch, which carries
no effect list: nothing has been removed, created or spawned) before any
filesystem access or subprocess; for an allowed URL, remove a
pre-existing destination, create the parent directories and spawn
`git clone`.  The subprocess exit code (which decides the later
`RuntimeError`) is irrelevant to the claims and not modelled. -/
def cloneRepo (repoUrl dest : String) (destExists : Bool) : Except String (List GitEffect) :=
  if ALLOWED_URL_PREFIXES.any (fun p => strStartsWith repoUrl p) then
    .ok ((if destExists then [GitEffect.rmtree dest] else []) ++
      [GitEffect.mkdirParents dest, GitEffect.spawn ["git", "clone", repoUrl, dest]])
  else
    .error ("Unsafe repository URL " ++ repoUrl ++ ": only https:// and git@ URLs are allowed")

/-! ## Provider responses and the message history (coder.py) -/

/-- Tool arguments: the JSON object handed to a tool call, modelled as an
association list of string fields (every field of the five tool schemas is
a string).  `lookup` mirrors `dict.get`. -/
abbrev ToolInput := List (String × String)

/-- A content block of a provider response: free text, or a tool
invocation carrying its unique call identifier, tool name and input. -/
inductive Block
  | text (t : String)
  | toolUse (id name : String) (input : ToolInput)
deriving DecidableEq, Repr

/-- Whether a block is a tool invocation. -/
def Block.isToolUse : Block → Bool
  | .toolUse _ _ _ => true
  | .text _ => false

/-- The call identifier of a tool invocation (empty for text blocks, which
never reach the places where this is used). -/
def Block.callId : Block → String
  | .toolUse id _ _ => id
  | .text _ => ""

/-- A provider response: ordered content blocks, the stop reason string
and the reported input-token usage (`response.usage.input_tokens`). -/
structure Response where
  content : List Block
  stop_reason : String
  input_tokens : Nat
deriving DecidableEq, Repr

/-- One tool result, keyed by the identifier of the invocation it
answers. -/
structure ToolResult where
  tool_use_id : String
  content : String
deriving DecidableEq, Repr

/-- The payload of one message in the conversation history: the seeded
prompt text, an assistant response's blocks, or a batch of tool
results. -/
inductive MessageContent
  | text (s : String)
  | blocks (bs : List Block)
  | results (rs : List ToolResult)
deriving DecidableEq, Repr

/-- A message of the conversation history. -/
structure Message where
  role : String
  content : MessageContent
deriving DecidableEq, Repr

/-- The result dict of `implement_ticket`: keys `success`, `pr_url`,
`blocked_reason`. -/
structure LoopResult where
  success : Bool
  pr_url : Option String
  blocked_reason : Option String
deriving DecidableEq, Repr

/-- `_blocked` from coder.py. -/
def blockedResult (reason : String) : LoopResult :=
  { success := false, pr_url := none, blocked_reason := some reason }

/-! ## The sandboxed tool executor dispatch (coder.py `_dispatch`) -/

/-- The mutable world the executor acts on: the filesystem map, the
process working directory (canonical component list), the parent process
environment, and two oracles abstracting operating-system behaviour the
embedding does not model further — the output of running a spawned
subprocess and the listing of a directory. -/
structure World where
  fs : FS
  cwd : List String
  env : Env
  runOutput : SpawnedProcess → String
  listOutput : String → String

/-- A required string field of a tool input (the tool schemas mark these
fields required, so the provider always supplies them). -/
def getStr (input : ToolInput) (key : String) : String :=
  (input.lookup key).getD ""

/-- `_dispatch` from coder.py: route one (non-terminal) tool call to its
implementation and return the result string together with the updated
world.  `run_command` defaults its working directory to the workspace root
when the `cwd` argument is absent or empty (Python `inputs.get("cwd") or
str(workspace)`), builds the credential-stripped environment and spawns
the command.  An unknown name produces the "Unknown tool" string. -/
def dispatch (name : String) (input : ToolInput) (workspace : String) (w : World) :
    String × World :=
  if name = "read_file" then
    ((readFileTool (getStr input "path") workspace w.cwd w.fs).1, w)
  else if name = "write_file" then
    let r := writeFileTool (getStr input "path") (getStr input "content") workspace w.cwd w.fs
    (r.1, { w with fs := r.2 })
  else if name = "list_directory" then
    (w.listOutput (getStr input "path"), w)
  else if name = "run_command" then
    let cwdArg := match input.lookup "cwd" with
      | some c => if c = "" then workspace else c
      | none => workspace
    (w.runOutput (runCommandSpawn (getStr input "command") cwdArg w.env).1, w)
  else
    ("Unknown tool: " ++ name, w)

/-- The tool-execution pass of the loop body: for every tool-invocation
block, in order, dispatch it and collect a result keyed by its call
identifier; text blocks contribute nothing.  Also returns the dispatch log
(name and input of every dispatched invocation, in order), so that "no
tool invocation was dispatched" is the statement that the log is empty. -/
def dispatchAll (blocks : List Block) (workspace : String) (w : World) :
    List ToolResult × World × List (String × ToolInput) :=
  match blocks with
  | [] => ([], w, [])
  | .text _ :: rest => dispatchAll rest workspace w
  | .toolUse id name input :: rest =>
    let r := dispatch name input workspace w
    let tailRes := dispatchAll rest workspace r.2
    ({ tool_use_id := id, content := r.1 } :: tailRes.1, tailRes.2.1, (name, input) :: tailRes.2.2)

/-! ## The conversation loop (coder.py `implement_ticket`) -/

/-- `_MAX_TURNS` from coder.py. -/
def MAX_TURNS : Nat := 100

/-- `_TOKEN_LIMIT` from coder.py. -/
def TOKEN_LIMIT : Nat := 180000

/-- A terminal pseudo-tool invocation found in a response. -/
inductive Terminal
  | submit (input : ToolInput)
  | report (input : ToolInput)
deriving DecidableEq, Repr

/-- The first scan over a response's blocks in `implement_ticket`: the
first tool invocation named `submit_work` or `report_blocked`, in block
order, wins (the scan returns on the first match; text blocks are only
logged). -/
def findTerminal : List Block → Option Terminal
  | [] => none
  | .text _ :: rest => findTerminal rest
  | .toolUse _ name input :: rest =>
    if name = "submit_work" then some (Terminal.submit input)
    else if name = "report_blocked" then some (Terminal.report input)
    else findTerminal rest

/-- The outcome of processing one provider response. -/
inductive StepOut
  | done (res : LoopResult)
  | next (messages : List Message) (world : World) (dispatched : List (String × ToolInput))

/-- One iteration body of `implement_ticket`, given the history `ms` (not
yet containing this response) and the response: first the context-window
guard, then the assistant message is appended, then the terminal scan,
then the end-of-turn protocol check, and finally all tool invocations are
dispatched and their results appended as a single user message. -/
def loopStep (ms : List Message) (workspace : String) (w : World) (r : Response) : StepOut :=
  if TOKEN_LIMIT ≤ r.input_tokens then
    .done (blockedResult "Context window limit reached — conversation history too long")
  else
    let ms := ms ++ [{ role := "assistant", content := MessageContent.blocks r.content }]
    match findTerminal r.content with
    | some (Terminal.submit input) =>
      .done { success := true, pr_url := input.lookup "pr_url", blocked_reason := none }
    | some (Terminal.report input) =>
      .done (blockedResult ((input.lookup "reason").getD "No reason provided"))
    | none =>
      if r.stop_reason = "end_turn" then
        .done (blockedResult "Agent stopped without submitting or reporting blocked")
      else
        let d := dispatchAll r.content workspace w
        .next (ms ++ [{ role := "user", content := MessageContent.results d.1 }]) d.2.1 d.2.2

/-- The turn loop of `implement_ticket`, instrumented with the number of
provider calls made so far and the accumulated dispatch log.  `fuel` is
the number of turns remaining out of `MAX_TURNS`; the provider is a
function from the history to the response, so "one provider call" is one
application of it.  When the fuel runs out the turn-limit Blocked result
is returned. -/
def runLoop (provider : List Message → Response) (workspace : String) :
    Nat → List Message → World → Nat → List (String × ToolInput) →
    LoopResult × Nat × List (String × ToolInput)
  | 0, _, _, calls, disp => (blockedResult "Exceeded maximum turn limit (100)", calls, disp)
  | fuel + 1, ms, w, calls, disp =>
    match loopStep ms workspace w (provider ms) with
    | .done res => (res, calls + 1, disp)
    | .next ms' w' d => runLoop provider workspace fuel ms' w' (calls + 1) (disp ++ d)

/-- `implement_ticket` from coder.py: seed the history with the built
prompt (abstracted here as `initialPrompt` — its construction from the
ticket fields does not bear on any claim) and run the loop for at most
`MAX_TURNS` turns.  Returns the result dict, the number of provider calls
made and the full dispatch log. -/
def implementTicket (provider : List Message → Response) (workspace : String)
    (initialPrompt : String) (w : World) :
    LoopResult × Nat × List (String × ToolInput) :=
  runLoop provider workspace MAX_TURNS
    [{ role := "user", content := MessageContent.text initialPrompt }] w 0 []

/-! ## Retry wrappers (coder.py `_call_with_retry`, validator.py `validate_ticket`) -/

/-- `_MAX_RETRIES` (both coder.py and validator.py). -/
def MAX_RETRIES : Nat := 60

/-- `_RETRY_DELAY` in seconds (both coder.py and validator.py). -/
def RETRY_DELAY : Nat := 60

/-- The status codes coder.py treats as transient: `(429, 500, 529)`. -/
def coderTransient (status : Nat) : Bool :=
  status = 429 || status = 500 || status = 529

/-- The status codes validator.py treats as transient: `(429, 529)` — note
the absence of 500. -/
def validatorTransient (status : Nat) : Bool :=
  status = 429 || status = 529

/-- The shared retry skeleton of both wrappers.  `attempt i` is the
outcome of the i-th provider call: a response, or an `APIStatusError`
carrying its status code.  Returns the final outcome, the number of
provider attempts made, and the list of sleep delays performed.  A
non-transient status is re-raised at once; a transient status on the last
remaining attempt is re-raised (coder.py re-raises `last_exc` after the
loop, validator.py raises on `attempt == _MAX_RETRIES - 1`: the same
error); otherwise the wrapper sleeps `delay` seconds and tries again. -/
def retryGo {α : Type} (transient : Nat → Bool) (attempt : Nat → Except Nat α) (delay : Nat) :
    Nat → Nat → Except Nat α × Nat × List Nat
  | _, 0 => (Except.error 0, 0, [])
  | i, remaining + 1 =>
    match attempt i with
    | Except.ok v => (Except.ok v, 1, [])
    | Except.error c =>
      if transient c then
        if remaining = 0 then (Except.error c, 1, [])
        else
          let t := retryGo transient attempt delay (i + 1) remaining
          (t.1, t.2.1 + 1, delay :: t.2.2)
      else (Except.error c, 1, [])

/-- `_call_with_retry` from coder.py: up to `_MAX_RETRIES` attempts,
retrying with a fixed `_RETRY_DELAY` on 429/500/529. -/
def callWithRetry {α : Type} (attempt : Nat → Except Nat α) : Except Nat α × Nat × List Nat :=
  retryGo coderTransient attempt RETRY_DELAY 0 MAX_RETRIES

/-- The retry loop of `validate_ticket` from validator.py: up to
`_MAX_RETRIES` attempts, retrying with a fixed `_RETRY_DELAY` on 429/529
only. -/
def validatorCallWithRetry {α : Type} (attempt : Nat → Except Nat α) :
    Except Nat α × Nat × List Nat :=
  retryGo validatorTransient attempt RETRY_DELAY 0 MAX_RETRIES

/-! ## Candidate-ticket ordering (jira.py) -/

/-- `_PRIORITY_ORDER` from jira.py. -/
def PRIORITY_ORDER : List (String × Nat) :=
  [("Highest", 0), ("High", 1), ("Medium", 2), ("Low", 3), ("Lowest", 4)]

/-- A candidate ticket as extracted by `_extract_ticket` (the fields the
sort key reads; `priority` is `None` when the tracker reports none). -/
structure TicketSummary where
  key : String
  summary : String
  issue_type : String
  status : String
  priority : Option String
  created : String
deriving DecidableEq, Repr

/-- The first component of `_sort_key`: bug-type tickets rank 0, all
others 1. -/
def typeRank (t : TicketSummary) : Nat :=
  if t.issue_type = "Bug" then 0 else 1

/-- The second component of `_sort_key`:
`_PRIORITY_ORDER.get(priority, 2)` — an unknown or missing priority ranks
with Medium. -/
def priorityRank (t : TicketSummary) : Nat :=
  match t.priority with
  | some p => (PRIORITY_ORDER.lookup p).getD 2
  | none => 2

/-- `_sort_key` from jira.py: the triple `(type_rank, priority_rank,
created)`; `get_tickets_from_filter` sorts ascending by this key, tuples
compared lexicographically and the creation timestamp (an ISO 8601
string) compared as a string, exactly as Python compares the tuple. -/
def sortKey (t : TicketSummary) : Nat × Nat × String :=
  (typeRank t, priorityRank t, t.created)

/-- Python string comparison: lexicographic on the code-point
sequences. -/
def createdLt (a b : String) : Prop :=
  a.data < b.data

instance (a b : String) : Decidable (createdLt a b) :=
  inferInstanceAs (Decidable (a.data < b.data))

/-- Strict lexicographic order on sort keys — `sortKey t < sortKey u` in
Python tuple comparison. -/
def keyLt (a b : Nat × Nat × String) : Prop :=
  a.1 < b.1 ∨ (a.1 = b.1 ∧ (a.2.1 < b.2.1 ∨ (a.2.1 = b.2.1 ∧ createdLt a.2.2 b.2.2)))

/-- `t` sorts strictly earlier than `u` in the candidate-ticket
ordering. -/
def sortsBefore (t u : TicketSummary) : Prop :=
  keyLt (sortKey t) (sortKey u)

/-! ## Concrete fixtures used by the witnesses and counterexamples -/

/-- A world with empty filesystem, root working directory, empty
environment and trivial oracles. -/
def trivialWorld : World :=
  { fs := [], cwd := [], env := [], runOutput := fun _ => "", listOutput := fun _ => "" }

/-- A response that both reports blocked and submits work, in that block
order. -/
def bothTerminalsResponse : Response :=
  { content := [Block.toolUse "tu_1" "report_blocked" [("reason", "stuck")],
                Block.toolUse "tu_2" "submit_work"
                  [("pr_url", "http://pr"), ("summary", "done")]],
    stop_reason := "tool_use", input_tokens := 100 }

/-- A response whose first terminal block is `submit_work`, preceded by
text and followed by a further (never dispatched) tool call. -/
def submitWithExtraResponse : Response :=
  { content := [Block.text "opening the PR",
                Block.toolUse "tu_1" "submit_work"
                  [("pr_url", "http://pr"), ("summary", "done")],
                Block.toolUse "tu_2" "read_file" [("path", "README.md")]],
    stop_reason := "tool_use", input_tokens := 100 }

/-- A response over the token ceiling that also carries a valid success
signal. -/
def overBudgetResponse : Response :=
  { content := [Block.toolUse "tu_1" "submit_work"
                  [("pr_url", "http://pr"), ("summary", "done")]],
    stop_reason := "tool_use", input_tokens := 180001 }

/-- A non-terminal tool-call response: one `read_file` invocation, no
terminal pseudo-tool, provider not signalling end of turn. -/
def nonTermResponse : Response :=
  { content := [Block.toolUse "tu_1" "read_file" [("path", "README.md")]],
    stop_reason := "tool_use", input_tokens := 100 }

/-- A non-terminal response with two tool invocations. -/
def twoToolsResponse : Response :=
  { content := [Block.text "exploring",
                Block.toolUse "tu_1" "read_file" [("path", "README.md")],
                Block.toolUse "tu_2" "list_directory" [("path", "src")]],
    stop_reason := "tool_use", input_tokens := 100 }

/-- A seeded initial user message. -/
def initialMessage : Message :=
  { role := "user", content := MessageContent.text "Ticket to implement" }

/-- A response that triggers none of the loop's terminal branches: token
usage below the ceiling, no terminal pseudo-tool invocation, and the
provider not signalling a natural end of turn. -/
def nonTerminalResponse (r : Response) : Prop :=
  r.input_tokens < TOKEN_LIMIT ∧ findTerminal r.content = none ∧ r.stop_reason ≠ "end_turn"

instance (r : Response) : Decidable (nonTerminalResponse r) :=
  inferInstanceAs (Decidable (r.input_tokens < TOKEN_LIMIT ∧
    findTerminal r.content = none ∧ r.stop_reason ≠ "end_turn"))

/-! ## Claims about the sandboxed executor, clone validation and ticket ordering -/

/-- C1: for every path handed to the read or write tool, if its
canonicalised (cwd-joined, `.`/`..`-normalised) form is not a descendant
of the resolved workspace root, the operation returns an error string,
reads no file (empty read trace) and leaves the filesystem unchanged; the
tools are total string-returning functions, so nothing is raised. -/
theorem read_write_outside_workspace (path content workspace : String) (cwd : List String)
    (fs : FS)
    (h : isRelativeTo (resolvePath cwd path) (resolvePath cwd workspace) = false) :
    (readFileTool path workspace cwd fs).1 =
      "Error: path " ++ path ++ " is outside the workspace and cannot be accessed" ∧
    (readFileTool path workspace cwd fs).2 = [] ∧
    (writeFileTool path content workspace cwd fs).1 =
      "Error: path " ++ path ++ " is outside the workspace and cannot be written" ∧
    (writeFileTool path content workspace cwd fs).2 = fs := by
  simp [readFileTool, writeFileTool, containmentOk, h]

/-- Witness for C1: `/etc/passwd` requested against workspace
`/work/repo` is refused and nothing is read or written. -/
theorem read_write_outside_workspace_witness :
    isRelativeTo (resolvePath ["work", "repo"] "/etc/passwd")
      (resolvePath ["work", "repo"] "/work/repo") = false ∧
    (readFileTool "/etc/passwd" "/work/repo" ["work", "repo"]
      [(["etc", "passwd"], "secret")]).2 = [] ∧
    (writeFileTool "/etc/passwd" "boom" "/work/repo" ["work", "repo"]
      [(["etc", "passwd"], "secret")]).2 = [(["etc", "passwd"], "secret")] :=
  ⟨by decide,
   (read_write_outside_workspace "/etc/passwd" "boom" "/work/repo" ["work", "repo"]
     [(["etc", "passwd"], "secret")] (by decide)).2.1,
   (read_write_outside_workspace "/etc/passwd" "boom" "/work/repo" ["work", "repo"]
     [(["etc", "passwd"], "secret")] (by decide)).2.2.2⟩

/-- C2: the environment handed to the `run_command` subprocess is a copy
of the parent environment with every credential variable name removed —
no credential name survives even when present in the parent — and the
parent environment is returned unchanged. -/
theorem run_command_credentials_stripped (command cwd : String) (parentEnv : Env) :
    (runCommandSpawn command cwd parentEnv).1.env =
      parentEnv.filter (fun kv => !(CREDENTIAL_ENV_VARS.contains kv.1)) ∧
    (runCommandSpawn command cwd parentEnv).1.env.all
      (fun kv => !(CREDENTIAL_ENV_VARS.contains kv.1)) = true ∧
    (runCommandSpawn command cwd parentEnv).2 = parentEnv := by
  refine ⟨rfl, ?_, rfl⟩
  simp only [runCommandSpawn, sanitizeEnv, List.all_eq_true]
  intro kv hkv
  exact (List.mem_filter.mp hkv).2

/-- C3: a clone URL that does not start with an allowed prefix makes
`clone_repo` raise `ValueError` (the error branch, carrying no effect
list: no directory is removed or created and no subprocess is spawned);
an allowed URL passes the check and the `git clone` subprocess is among
the performed effects. -/
theorem clone_rejects_unsafe_urls (url dest : String) (destExists : Bool) :
    (ALLOWED_URL_PREFIXES.any (fun p => strStartsWith url p) = false →
      cloneRepo url dest destExists =
        Except.error ("Unsafe repository URL " ++ url ++
          ": only https:// and git@ URLs are allowed")) ∧
    (ALLOWED_URL_PREFIXES.any (fun p => strStartsWith url p) = true →
      ∃ effects, cloneRepo url dest destExists = Except.ok effects ∧
        GitEffect.spawn ["git", "clone", url, dest] ∈ effects) := by
  constructor
  · intro h
    simp [cloneRepo, h]
  · intro h
    refine ⟨(if destExists then [GitEffect.rmtree dest] else []) ++
      [GitEffect.mkdirParents dest, GitEffect.spawn ["git", "clone", url, dest]], ?_, ?_⟩
    · simp [cloneRepo, h]
    · cases destExists <;> simp

/-- Witness for C3: a `file://` URL is rejected with no effects, an
`https://` URL leads to a `git clone` subprocess. -/
theorem clone_rejects_unsafe_urls_witness :
    cloneRepo "file:///etc/passwd" "/tmp/dest" true =
      Except.error ("Unsafe repository URL file:///etc/passwd" ++
        ": only https:// and git@ URLs are allowed") ∧
    ∃ effects, cloneRepo "https://example.com/r.git" "/tmp/dest" false =
      Except.ok effects ∧
      GitEffect.spawn ["git", "clone", "https://example.com/r.git", "/tmp/dest"] ∈ effects :=
  ⟨(clone_rejects_unsafe_urls "file:///etc/passwd" "/tmp/dest" true).1 (by decide),
   (clone_rejects_unsafe_urls "https://example.com/r.git" "/tmp/dest" false).2 (by decide)⟩

/-- C9: the candidate-ticket ordering places any bug-type ticket before
any non-bug ticket regardless of priority or creation time; among equal
type rank, the higher priority tier (smaller `_PRIORITY_ORDER` value)
sorts earlier; among equal type and priority rank, the earlier creation
timestamp sorts earlier. -/
theorem ticket_ordering (t u : TicketSummary) :
    (t.issue_type = "Bug" → u.issue_type ≠ "Bug" → sortsBefore t u) ∧
    (typeRank t = typeRank u → ∀ p q i j, t.priority = some p → u.priority = some q →
      PRIORITY_ORDER.lookup p = some i → PRIORITY_ORDER.lookup q = some j → i < j →
      sortsBefore t u) ∧
    (typeRank t = typeRank u → priorityRank t = priorityRank u → createdLt t.created u.created →
      sortsBefore t u) := by
  refine ⟨?_, ?_, ?_⟩
  · intro ht hu
    left
    simp [sortKey, typeRank, ht, hu]
  · intro hty p q i j hp hq hip hjq hij
    right
    refine ⟨hty, Or.inl ?_⟩
    simpa [sortKey, priorityRank, hp, hq, hip, hjq] using hij
  · intro hty hpr hc
    right
    exact ⟨hty, Or.inr ⟨hpr, hc⟩⟩

/-- Witness for C9: a Low-priority old bug sorts before a Highest-priority
new task; among tasks, High priority sorts before Medium; among equal
type and priority, the older ticket sorts first. -/
theorem ticket_ordering_witness :
    sortsBefore
      { key := "NGN-1", summary := "s", issue_type := "Bug", status := "READY",
        priority := some "Low", created := "2024-05-01T00:00:00.000+0000" }
      { key := "NGN-2", summary := "s", issue_type := "Task", status := "READY",
        priority := some "Highest", created := "2023-01-01T00:00:00.000+0000" } ∧
    sortsBefore
      { key := "NGN-3", summary := "s", issue_type := "Task", status := "READY",
        priority := some "High", created := "2024-05-01T00:00:00.000+0000" }
      { key := "NGN-4", summary := "s", issue_type := "Task", status := "READY",
        priority := some "Medium", created := "2023-01-01T00:00:00.000+0000" } ∧
    sortsBefore
      { key := "NGN-5", summary := "s", issue_type := "Task", status := "READY",
        priority := some "High", created := "2023-01-01T00:00:00.000+0000" }
      { key := "NGN-6", summary := "s", issue_type := "Task", status := "READY",
        priority := some "High", created := "2024-05-01T00:00:00.000+0000" } :=
  ⟨(ticket_ordering _ _).1 (by decide) (by decide),
   (ticket_ordering _ _).2.1 (by decide) "High" "Medium" 1 2 rfl rfl (by decide) (by decide)
     (by decide),
   (ticket_ordering _ _).2.2 (by decide) (by decide) (by decide)⟩

/-- C10: a relative path is canonicalised against the process working
directory (not the workspace root) before the containment comparison —
the read is attempted exactly when the cwd-joined normalisation lands
inside the resolved workspace — and the workspace root path itself always
passes the containment check (the read is attempted). -/
theorem relative_paths_resolve_against_cwd (path workspace : String) (cwd : List String)
    (fs : FS) :
    (isAbsolute path = false →
      ((readFileTool path workspace cwd fs).2 ≠ [] ↔
        isRelativeTo ((cwd ++ parseComponents path).foldl resolveStep [])
          (resolvePath cwd workspace) = true)) ∧
    (readFileTool workspace workspace cwd fs).2 ≠ [] := by
  constructor
  · intro habs
    have hres : resolvePath cwd path = (cwd ++ parseComponents path).foldl resolveStep [] := by
      simp only [resolvePath, habs, Bool.false_eq_true, if_false]
    unfold readFileTool containmentOk
    rw [hres]
    by_cases h : isRelativeTo ((cwd ++ parseComponents path).foldl resolveStep [])
        (resolvePath cwd workspace) = true
    · rw [if_pos h]
      cases lookupFS fs ((cwd ++ parseComponents path).foldl resolveStep []) with
      | none => exact iff_of_true (by simp) h
      | some c => exact iff_of_true (by simp) h
    · rw [if_neg h]
      exact iff_of_false (by simp) h
  · unfold readFileTool containmentOk
    have h : isRelativeTo (resolvePath cwd workspace) (resolvePath cwd workspace) = true := by
      simp [isRelativeTo]
    rw [if_pos h]
    cases lookupFS fs (resolvePath cwd workspace) <;> simp

/-- Witness for C10: the same relative path `src/main.py` is accepted when
the process cwd is the workspace `/work/repo` and rejected when the cwd
is `/tmp`; the workspace root itself passes the check. -/
theorem relative_paths_resolve_against_cwd_witness :
    ((readFileTool "src/main.py" "/work/repo" ["work", "repo"] []).2 ≠ [] ↔
      isRelativeTo ((["work", "repo"] ++ parseComponents "src/main.py").foldl resolveStep [])
        (resolvePath ["work", "repo"] "/work/repo") = true) ∧
    ((readFileTool "src/main.py" "/work/repo" ["tmp"] []).2 ≠ [] ↔
      isRelativeTo ((["tmp"] ++ parseComponents "src/main.py").foldl resolveStep [])
        (resolvePath ["tmp"] "/work/repo") = true) ∧
    (readFileTool "/work/repo" "/work/repo" ["home"] []).2 ≠ [] :=
  ⟨(relative_paths_resolve_against_cwd "src/main.py" "/work/repo" ["work", "repo"] []).1
     (by decide),
   (relative_paths_resolve_against_cwd "src/main.py" "/work/repo" ["tmp"] []).1 (by decide),
   (relative_paths_resolve_against_cwd "x" "/work/repo" ["home"] []).2⟩

/-! ## Claims about the conversation loop -/

/-- C5: whenever a provider call reports input-token usage at or above
the 180,000 ceiling, the loop returns Blocked with the context-window
reason on the spot — one more provider call was made, and no content
block of that response was dispatched (the dispatch log is unchanged). -/
theorem token_limit_blocks (provider : List Message → Response) (workspace : String)
    (fuel : Nat) (ms : List Message) (w : World) (calls : Nat)
    (disp : List (String × ToolInput))
    (h : TOKEN_LIMIT ≤ (provider ms).input_tokens) :
    runLoop provider workspace (fuel + 1) ms w calls disp =
      (blockedResult "Context window limit reached — conversation history too long",
        calls + 1, disp) := by
  simp [runLoop, loopStep, h]

/-- Witness for C5: a first response reporting 180,001 input tokens that
also carries a valid success signal yields Blocked after exactly one
provider call with nothing dispatched. -/
theorem token_limit_blocks_witness :
    runLoop (fun _ => overBudgetResponse) "/work/repo" 100 [initialMessage] trivialWorld 0 [] =
      (blockedResult "Context window limit reached — conversation history too long", 1, []) :=
  token_limit_blocks (fun _ => overBudgetResponse) "/work/repo" 99 [initialMessage]
    trivialWorld 0 [] (by decide)

/-- Counterexample to C4 as stated: a response below the token ceiling
containing a `submit_work` invocation does NOT always yield Success — the
block scan acts on the first terminal block in order, so a
`report_blocked` block earlier in the same response wins and the loop
returns Blocked (here with reason "stuck"), after one provider call and
with nothing dispatched. -/
theorem submit_not_always_success :
    (bothTerminalsResponse.content.any fun b =>
      match b with
      | Block.toolUse _ n _ => n = "submit_work"
      | Block.text _ => false) = true ∧
    implementTicket (fun _ => bothTerminalsResponse) "/work/repo" "Ticket" trivialWorld =
      (blockedResult "stuck", 1, []) :=
  ⟨rfl, rfl⟩

/-- C4 (amended): if the response's reported usage is below the ceiling
and the FIRST terminal tool-use block in the response is `submit_work`,
the loop returns Success carrying the supplied pr_url (the summary is
logged, not carried in the returned outcome), makes no further provider
call (exactly one more call happened) and dispatches no tool invocation
from that response (dispatch log unchanged). -/
theorem submit_first_terminal_success (provider : List Message → Response) (workspace : String)
    (fuel : Nat) (ms : List Message) (w : World) (calls : Nat)
    (disp : List (String × ToolInput)) (input : ToolInput)
    (htok : (provider ms).input_tokens < TOKEN_LIMIT)
    (hterm : findTerminal (provider ms).content = some (Terminal.submit input)) :
    runLoop provider workspace (fuel + 1) ms w calls disp =
      ({ success := true, pr_url := input.lookup "pr_url", blocked_reason := none },
        calls + 1, disp) := by
  have h : ¬ TOKEN_LIMIT ≤ (provider ms).input_tokens := Nat.not_le.mpr htok
  simp [runLoop, loopStep, h, hterm]

/-- Witness for the amended C4: a response whose first terminal block is
`submit_work` (with a further tool call after it) returns Success with
the pr_url after exactly one provider call and dispatches nothing. -/
theorem submit_first_terminal_success_witness :
    runLoop (fun _ => submitWithExtraResponse) "/work/repo" 100 [initialMessage]
      trivialWorld 0 [] =
      ({ success := true, pr_url := some "http://pr", blocked_reason := none }, 1, []) :=
  submit_first_terminal_success (fun _ => submitWithExtraResponse) "/work/repo" 99
    [initialMessage] trivialWorld 0 []
    [("pr_url", "http://pr"), ("summary", "done")] (by decide) (by decide)

/-- Helper: a non-terminal response makes the loop body dispatch all tool
invocations and append the assistant message and the single user-role
results message. -/
theorem loopStep_nonTerminal (ms : List Message) (workspace : String) (w : World)
    (r : Response) (h : nonTerminalResponse r) :
    loopStep ms workspace w r =
      StepOut.next
        (ms ++ [{ role := "assistant", content := MessageContent.blocks r.content },
                { role := "user",
                  content := MessageContent.results (dispatchAll r.content workspace w).1 }])
        (dispatchAll r.content workspace w).2.1 (dispatchAll r.content workspace w).2.2 := by
  obtain ⟨h1, h2, h3⟩ := h
  have h1n : ¬ TOKEN_LIMIT ≤ r.input_tokens := Nat.not_le.mpr h1
  simp [loopStep, h1n, h2, h3]

/-- Helper: the loop never makes more provider calls than it has fuel. -/
theorem runLoop_calls_le (provider : List Message → Response) (workspace : String) :
    ∀ (fuel : Nat) (ms : List Message) (w : World) (calls : Nat)
      (disp : List (String × ToolInput)),
      (runLoop provider workspace fuel ms w calls disp).2.1 ≤ calls + fuel := by
  intro fuel
  induction fuel with
  | zero =>
    intro ms w calls disp
    simp [runLoop]
  | succ n ih =>
    intro ms w calls disp
    simp only [runLoop]
    cases loopStep ms workspace w (provider ms) with
    | done res =>
      show calls + 1 ≤ calls + (n + 1)
      omega
    | next ms2 w2 d =>
      show (runLoop provider workspace n ms2 w2 (calls + 1) (disp ++ d)).2.1 ≤ calls + (n + 1)
      have := ih ms2 w2 (calls + 1) (disp ++ d)
      omega

/-- Helper: with every response non-terminal, the loop burns all its fuel
and ends Blocked on the turn limit, making one provider call per unit of
fuel. -/
theorem runLoop_allNonTerminal (provider : List Message → Response) (workspace : String)
    (hp : ∀ ms, nonTerminalResponse (provider ms)) :
    ∀ (fuel : Nat) (ms : List Message) (w : World) (calls : Nat)
      (disp : List (String × ToolInput)),
      (runLoop provider workspace fuel ms w calls disp).1 =
        blockedResult "Exceeded maximum turn limit (100)" ∧
      (runLoop provider workspace fuel ms w calls disp).2.1 = calls + fuel := by
  intro fuel
  induction fuel with
  | zero =>
    intro ms w calls disp
    simp [runLoop]
  | succ n ih =>
    intro ms w calls disp
    simp only [runLoop]
    rw [loopStep_nonTerminal ms workspace w (provider ms) (hp ms)]
    have := ih
      (ms ++ [{ role := "assistant", content := MessageContent.blocks (provider ms).content },
              { role := "user",
                content := MessageContent.results
                  (dispatchAll (provider ms).content workspace w).1 }])
      (dispatchAll (provider ms).content workspace w).2.1 (calls + 1)
      (disp ++ (dispatchAll (provider ms).content workspace w).2.2)
    exact ⟨this.1, this.2.trans (by omega)⟩

/-- C6: the loop makes at most `MAX_TURNS` (100) provider calls per
attempt, and when every response is a non-terminal tool-call response
(so even a provider ready to answer 101 times is only consulted 100
times) the outcome is Blocked with the turn-limit reason after exactly
100 provider calls. -/
theorem turn_limit_bounds (provider : List Message → Response)
    (workspace initialPrompt : String) (w : World) :
    (implementTicket provider workspace initialPrompt w).2.1 ≤ MAX_TURNS ∧
    ((∀ ms, nonTerminalResponse (provider ms)) →
      (implementTicket provider workspace initialPrompt w).1 =
        blockedResult "Exceeded maximum turn limit (100)" ∧
      (implementTicket provider workspace initialPrompt w).2.1 = MAX_TURNS) := by
  constructor
  · simpa [implementTicket] using
      runLoop_calls_le provider workspace MAX_TURNS
        [{ role := "user", content := MessageContent.text initialPrompt }] w 0 []
  · intro hp
    have h := runLoop_allNonTerminal provider workspace hp MAX_TURNS
      [{ role := "user", content := MessageContent.text initialPrompt }] w 0 []
    simpa [implementTicket] using h

/-- Witness for C6: a provider that always answers with a non-terminal
`read_file` call is consulted exactly 100 times and the attempt ends
Blocked on the turn limit. -/
theorem turn_limit_bounds_witness :
    (implementTicket (fun _ => nonTermResponse) "/work/repo" "Ticket" trivialWorld).1 =
      blockedResult "Exceeded maximum turn limit (100)" ∧
    (implementTicket (fun _ => nonTermResponse) "/work/repo" "Ticket" trivialWorld).2.1 =
      MAX_TURNS :=
  (turn_limit_bounds (fun _ => nonTermResponse) "/work/repo" "Ticket" trivialWorld).2
    (fun _ => by decide)

/-- Helper: `dispatchAll` produces exactly one result per tool
invocation, keyed by its call identifier, in block order. -/
theorem dispatchAll_ids (workspace : String) :
    ∀ (blocks : List Block) (w : World),
      (dispatchAll blocks workspace w).1.map (fun tr => tr.tool_use_id) =
        (blocks.filter Block.isToolUse).map Block.callId := by
  intro blocks
  induction blocks with
  | nil =>
    intro w
    simp [dispatchAll]
  | cons b rest ih =>
    intro w
    cases b with
    | text t =>
      simp [dispatchAll, Block.isToolUse, ih]
    | toolUse id name input =>
      simp [dispatchAll, Block.isToolUse, Block.callId, ih]

/-- C8: for a non-terminal response, under the provider contract that an
end-of-turn stop reason comes with no pending tool invocation: if no tool
invocation appears and the provider signals natural end of turn, the loop
returns Blocked with the protocol-violation reason; otherwise every
tool-invocation block is dispatched in order, each receiving exactly one
result keyed by its call identifier, and all results are appended as one
new user-role message (after the assistant message) before the next
provider call is issued. -/
theorem tool_results_before_next_call (provider : List Message → Response)
    (workspace : String) (fuel : Nat) (ms : List Message) (w : World) (calls : Nat)
    (disp : List (String × ToolInput)) (r : Response)
    (hr : provider ms = r)
    (htok : r.input_tokens < TOKEN_LIMIT)
    (hterm : findTerminal r.content = none)
    (hwf : r.stop_reason = "end_turn" → r.content.all (fun b => !b.isToolUse) = true) :
    (r.content.all (fun b => !b.isToolUse) = true ∧ r.stop_reason = "end_turn" →
      runLoop provider workspace (fuel + 1) ms w calls disp =
        (blockedResult "Agent stopped without submitting or reporting blocked",
          calls + 1, disp)) ∧
    (¬(r.content.all (fun b => !b.isToolUse) = true ∧ r.stop_reason = "end_turn") →
      runLoop provider workspace (fuel + 1) ms w calls disp =
        runLoop provider workspace fuel
          (ms ++ [{ role := "assistant", content := MessageContent.blocks r.content },
                  { role := "user",
                    content := MessageContent.results
                      (dispatchAll r.content workspace w).1 }])
          (dispatchAll r.content workspace w).2.1 (calls + 1)
          (disp ++ (dispatchAll r.content workspace w).2.2) ∧
      (dispatchAll r.content workspace w).1.map (fun tr => tr.tool_use_id) =
        (r.content.filter Block.isToolUse).map Block.callId) := by
  have hn : ¬ TOKEN_LIMIT ≤ r.input_tokens := Nat.not_le.mpr htok
  constructor
  · rintro ⟨hall, hstop⟩
    simp [runLoop, loopStep, hr, hn, hterm, hstop]
  · intro hno
    have hstop : r.stop_reason ≠ "end_turn" := fun he => hno ⟨hwf he, he⟩
    refine ⟨?_, dispatchAll_ids workspace r.content w⟩
    simp only [runLoop]
    rw [hr, loopStep_nonTerminal ms workspace w r ⟨htok, hterm, hstop⟩]

/-- Witness for C8: a response with two tool invocations is dispatched in
full — both results, keyed `tu_1` then `tu_2`, land in one user message
appended before the next provider call. -/
theorem tool_results_before_next_call_witness :
    runLoop (fun _ => twoToolsResponse) "/work/repo" 100 [initialMessage] trivialWorld 0 [] =
      runLoop (fun _ => twoToolsResponse) "/work/repo" 99
        ([initialMessage] ++
          [{ role := "assistant", content := MessageContent.blocks twoToolsResponse.content },
           { role := "user",
             content := MessageContent.results
               (dispatchAll twoToolsResponse.content "/work/repo" trivialWorld).1 }])
        (dispatchAll twoToolsResponse.content "/work/repo" trivialWorld).2.1 (0 + 1)
        ([] ++ (dispatchAll twoToolsResponse.content "/work/repo" trivialWorld).2.2) ∧
    (dispatchAll twoToolsResponse.content "/work/repo" trivialWorld).1.map
      (fun tr => tr.tool_use_id) =
      (twoToolsResponse.content.filter Block.isToolUse).map Block.callId :=
  (tool_results_before_next_call (fun _ => twoToolsResponse) "/work/repo" 99
    [initialMessage] trivialWorld 0 [] twoToolsResponse rfl (by decide) (by decide)
    (by decide)).2 (by decide)

/-! ## Claims about the retry wrappers -/

/-- Helper: a non-transient error on the current attempt is re-raised at
once — one attempt, no sleeps. -/
theorem retryGo_nonTransient {α : Type} (transient : Nat → Bool)
    (attempt : Nat → Except Nat α) (delay i remaining c : Nat)
    (hc : attempt i = Except.error c) (ht : transient c = false) :
    retryGo transient attempt delay i (remaining + 1) = (Except.error c, 1, []) := by
  simp [retryGo, hc, ht]

/-- Helper: if the first `k` attempts fail transiently and attempt `k`
succeeds, the wrapper returns that success after `k + 1` attempts and `k`
fixed-delay sleeps. -/
theorem retryGo_ok {α : Type} (transient : Nat → Bool) (attempt : Nat → Except Nat α)
    (delay : Nat) :
    ∀ (k i remaining : Nat) (v : α), k < remaining →
      (∀ j, j < k → ∃ c, attempt (i + j) = Except.error c ∧ transient c = true) →
      attempt (i + k) = Except.ok v →
      retryGo transient attempt delay i remaining =
        (Except.ok v, k + 1, List.replicate k delay) := by
  intro k
  induction k with
  | zero =>
    intro i remaining v hk hfail hok
    cases remaining with
    | zero => omega
    | succ rem =>
      rw [Nat.add_zero] at hok
      simp [retryGo, hok]
  | succ k ih =>
    intro i remaining v hk hfail hok
    cases remaining with
    | zero => omega
    | succ rem =>
      obtain ⟨c, hc, htr⟩ := hfail 0 (Nat.succ_pos k)
      rw [Nat.add_zero] at hc
      have hrem : ¬ rem = 0 := by omega
      have hrec := ih (i + 1) rem v (by omega)
        (fun j hj => by
          obtain ⟨c2, hc2, ht2⟩ := hfail (j + 1) (by omega)
          exact ⟨c2, by rw [show i + 1 + j = i + (j + 1) from by omega]; exact hc2, ht2⟩)
        (by rw [show i + 1 + k = i + (k + 1) from by omega]; exact hok)
      simp [retryGo, hc, htr, hrem, hrec, List.replicate_succ]

/-- Helper: if every attempt fails transiently, the wrapper exhausts its
budget and re-raises the last error after exactly `remaining` attempts
and `remaining - 1` sleeps. -/
theorem retryGo_exhaust {α : Type} (transient : Nat → Bool) (attempt : Nat → Except Nat α)
    (delay : Nat) :
    ∀ (remaining i : Nat), 0 < remaining →
      (∀ j, j < remaining → ∃ c, attempt (i + j) = Except.error c ∧ transient c = true) →
      ∃ c, attempt (i + (remaining - 1)) = Except.error c ∧
        retryGo transient attempt delay i remaining =
          (Except.error c, remaining, List.replicate (remaining - 1) delay) := by
  intro remaining
  induction remaining with
  | zero =>
    intro i h
    omega
  | succ rem ih =>
    intro i hpos hfail
    obtain ⟨c, hc, htr⟩ := hfail 0 (by omega)
    rw [Nat.add_zero] at hc
    cases rem with
    | zero =>
      refine ⟨c, by simpa using hc, ?_⟩
      simp [retryGo, hc, htr]
    | succ rem2 =>
      obtain ⟨c2, hc2, hrun⟩ := ih (i + 1) (by omega)
        (fun j hj => by
          obtain ⟨c3, hc3, ht3⟩ := hfail (j + 1) (by omega)
          exact ⟨c3, by rw [show i + 1 + j = i + (j + 1) from by omega]; exact hc3, ht3⟩)
      refine ⟨c2, ?_, ?_⟩
      · rw [show i + (rem2 + 1 + 1 - 1) = i + 1 + (rem2 + 1 - 1) from by omega]
        exact hc2
      · generalize hm : rem2 + 1 = m at hrun ⊢
        have hm0 : ¬ m = 0 := by omega
        simp only [retryGo, hc, htr, if_true, eq_self_iff_true]
        rw [if_neg hm0, hrun]
        subst hm
        simp [List.replicate_succ]

/-- Counterexample to C7 as stated: the validation call does NOT treat an
internal-server-class status as transient — on a 500 it re-raises after a
single attempt with no retry sleep (while the conversation-loop wrapper
would have retried). -/
theorem validator_does_not_retry_500 :
    validatorCallWithRetry (fun _ => (Except.error 500 : Except Nat Unit)) =
      (Except.error 500, 1, []) :=
  rfl

/-- C7 (amended): both wrappers retry with a fixed delay up to the fixed
maximum attempt count and re-raise a non-transient error immediately,
and exhausting all retries re-raises the last transient error; but their
transient classes differ — the conversation-loop wrapper retries
rate-limited/overloaded/internal-server statuses (429, 500, 529), while
the validation call retries only rate-limited/overloaded (429, 529) and
re-raises an internal-server-class status immediately. -/
theorem retry_wrapper_behaviour {α : Type} (attempt : Nat → Except Nat α) :
    (∀ c, attempt 0 = Except.error c → coderTransient c = false →
      callWithRetry attempt = (Except.error c, 1, [])) ∧
    (∀ k v, k < MAX_RETRIES →
      (∀ j, j < k → ∃ c, attempt j = Except.error c ∧ coderTransient c = true) →
      attempt k = Except.ok v →
      callWithRetry attempt = (Except.ok v, k + 1, List.replicate k RETRY_DELAY)) ∧
    ((∀ j, j < MAX_RETRIES → ∃ c, attempt j = Except.error c ∧ coderTransient c = true) →
      ∃ c, attempt (MAX_RETRIES - 1) = Except.error c ∧
        callWithRetry attempt =
          (Except.error c, MAX_RETRIES, List.replicate (MAX_RETRIES - 1) RETRY_DELAY)) ∧
    (∀ c, attempt 0 = Except.error c → validatorTransient c = false →
      validatorCallWithRetry attempt = (Except.error c, 1, [])) ∧
    (∀ k v, k < MAX_RETRIES →
      (∀ j, j < k → ∃ c, attempt j = Except.error c ∧ validatorTransient c = true) →
      attempt k = Except.ok v →
      validatorCallWithRetry attempt = (Except.ok v, k + 1, List.replicate k RETRY_DELAY)) ∧
    ((∀ j, j < MAX_RETRIES → ∃ c, attempt j = Except.error c ∧ validatorTransient c = true) →
      ∃ c, attempt (MAX_RETRIES - 1) = Except.error c ∧
        validatorCallWithRetry attempt =
          (Except.error c, MAX_RETRIES, List.replicate (MAX_RETRIES - 1) RETRY_DELAY)) := by
  refine ⟨?_, ?_, ?_, ?_, ?_, ?_⟩
  · intro c hc ht
    exact retryGo_nonTransient coderTransient attempt RETRY_DELAY 0 (MAX_RETRIES - 1) c hc ht
  · intro k v hk hfail hok
    exact retryGo_ok coderTransient attempt RETRY_DELAY k 0 MAX_RETRIES v hk
      (fun j hj => by simpa using hfail j hj) (by simpa using hok)
  · intro hfail
    simpa using retryGo_exhaust coderTransient attempt RETRY_DELAY MAX_RETRIES 0
      (by simp [MAX_RETRIES]) (fun j hj => by simpa using hfail j hj)
  · intro c hc ht
    exact retryGo_nonTransient validatorTransient attempt RETRY_DELAY 0 (MAX_RETRIES - 1) c hc ht
  · intro k v hk hfail hok
    exact retryGo_ok validatorTransient attempt RETRY_DELAY k 0 MAX_RETRIES v hk
      (fun j hj => by simpa using hfail j hj) (by simpa using hok)
  · intro hfail
    simpa using retryGo_exhaust validatorTransient attempt RETRY_DELAY MAX_RETRIES 0
      (by simp [MAX_RETRIES]) (fun j hj => by simpa using hfail j hj)

/-- Witness for the amended C7: a 400 is re-raised at once by the coder
wrapper; the validator wrapper recovers after one 529 with one 60-second
sleep; a provider stuck on 429 exhausts the coder wrapper's 60 attempts
with 59 sleeps and the last 429 is re-raised. -/
theorem retry_wrapper_behaviour_witness :
    callWithRetry (fun _ => (Except.error 400 : Except Nat Unit)) =
      (Except.error 400, 1, []) ∧
    validatorCallWithRetry
      (fun i => if i = 0 then (Except.error 529 : Except Nat Unit) else Except.ok ()) =
      (Except.ok (), 2, [60]) ∧
    ∃ c, (fun _ => (Except.error 429 : Except Nat Unit)) (MAX_RETRIES - 1) =
      Except.error c ∧
      callWithRetry (fun _ => (Except.error 429 : Except Nat Unit)) =
        (Except.error c, MAX_RETRIES, List.replicate (MAX_RETRIES - 1) RETRY_DELAY) :=
  ⟨(retry_wrapper_behaviour (fun _ => (Except.error 400 : Except Nat Unit))).1 400 rfl
     (by decide),
   (retry_wrapper_behaviour
       (fun i => if i = 0 then (Except.error 529 : Except Nat Unit) else Except.ok ())).2.2.2.2.1
     1 () (by decide)
     (fun j hj => by
       interval_cases j
       exact ⟨529, rfl, by decide⟩) rfl,
   (retry_wrapper_behaviour (fun _ => (Except.error 429 : Except Nat Unit))).2.2.1
     (fun j hj => ⟨429, rfl, by decide⟩)⟩

end NgnAgent
